import Mathlib

/-!
# Btock normalization and table-ingestion engine: a shallow embedding

This file embeds the core of the Btock repository in Lean 4:
the KPI normalization calculator (`src/normalization.js`), the
row-to-record mapper and markdown table parser of the data parser
(`DataParser`), and the composite-score path of the database manager
(`computeCompositeComponents`).

JavaScript numbers are idealized as exact rationals (`ℚ`): floating-point
rounding, overflow to `Infinity`, and the `"Infinity"` literal accepted by
`parseFloat` are outside the model.  A JavaScript value that can reach the
engine is modelled by `JSVal`: a finite number, a string, or
`null`/`undefined` (merged, since every code path under study treats them
identically).
-/

namespace Btock

/-- A JavaScript value as it appears in a KPI record: `null`/`undefined`
(merged), a finite number (idealized as a rational), or a string. -/
inductive JSVal where
  | jsNull : JSVal
  | num : ℚ → JSVal
  | str : String → JSVal
deriving DecidableEq

/-- JavaScript truthiness restricted to `JSVal`: `null`/`undefined` are
falsy, a number is truthy iff nonzero, a string is truthy iff nonempty. -/
def truthy : JSVal → Bool
  | .jsNull => false
  | .num q => q ≠ 0
  | .str s => s ≠ ""

/-- JavaScript `a || b`: returns `a` when `a` is truthy, otherwise `b`. -/
def jsOr (a b : JSVal) : JSVal := if truthy a then a else b

/-- Value of a digit string, most significant first. -/
def digitsToNat (cs : List Char) : ℕ :=
  cs.foldl (fun acc c => acc * 10 + (c.toNat - '0'.toNat)) 0

/-- Characters `parseFloat` skips before the number. -/
def isJsSpace (c : Char) : Bool :=
  c = ' ' ∨ c = '\t' ∨ c = '\n' ∨ c = '\r'

/-- Exponent part of a JS float literal: `e`/`E`, optional sign, digits.
Returns `0` when no well-formed exponent follows (JS `parseFloat` then
stops before the `e`). -/
def parseExpPart (cs : List Char) : ℤ :=
  match cs with
  | c :: rest =>
    if c = 'e' ∨ c = 'E' then
      let (esgn, r2) : ℤ × List Char :=
        match rest with
        | '-' :: t => (-1, t)
        | '+' :: t => (1, t)
        | _ => (1, rest)
      let eds := r2.takeWhile Char.isDigit
      if eds.isEmpty then 0 else esgn * (digitsToNat eds : ℤ)
    else 0
  | [] => 0

/-- JavaScript `parseFloat`, idealized over exact rationals: skip leading
whitespace, optional sign, then the longest prefix of the form
`digits [. digits] [exponent]` or `. digits [exponent]`; trailing junk is
ignored.  Returns `none` where JS returns `NaN` (no digit parsed).  The
`"Infinity"` literal and float overflow are outside the model. -/
def parseFloatJS (s : String) : Option ℚ :=
  let cs := s.data.dropWhile isJsSpace
  let (sgn, cs1) : ℚ × List Char :=
    match cs with
    | '-' :: rest => (-1, rest)
    | '+' :: rest => (1, rest)
    | _ => (1, cs)
  let intDigits := cs1.takeWhile Char.isDigit
  let cs2 := cs1.drop intDigits.length
  let (fracDigits, cs3) : List Char × List Char :=
    match cs2 with
    | '.' :: rest => (rest.takeWhile Char.isDigit, rest.drop (rest.takeWhile Char.isDigit).length)
    | _ => ([], cs2)
  if intDigits.isEmpty ∧ fracDigits.isEmpty then none
  else
    let mantissa : ℚ :=
      sgn * ((digitsToNat intDigits : ℚ) + (digitsToNat fracDigits : ℚ) / (10 : ℚ) ^ fracDigits.length)
    some (mantissa * (10 : ℚ) ^ parseExpPart cs3)

/-- `NormalizationCalculator.parseNumeric`: `null`/`undefined`/`'N/A'`/`''`
give `null`; numbers pass through unchanged; strings are stripped of every
character that is not a digit, a decimal point or a minus sign, then parsed
with `parseFloat`; a `NaN` parse gives `null`. -/
def parseNumeric : JSVal → Option ℚ
  | .jsNull => none
  | .num q => some q
  | .str s =>
    if s = "N/A" ∨ s = "" then none
    else parseFloatJS (String.mk (s.data.filter (fun c => c.isDigit ∨ c = '.' ∨ c = '-')))

/-- `NormalizationCalculator.safeDivide`: `null` when either operand is
`null` or the denominator is zero, the quotient otherwise. -/
def safeDivide (numerator denominator : Option ℚ) : Option ℚ :=
  match numerator, denominator with
  | some n, some d => if d = 0 then none else some (n / d)
  | _, _ => none

/-- RSI(14): `(RSI - 50) / 50`. -/
def normalizeRSI (rsi : JSVal) : Option ℚ :=
  (parseNumeric rsi).map (fun v => (v - 50) / 50)

/-- Stochastic (9,6): `(StochK - 50) / 50`. -/
def normalizeStochastic (stochastic : JSVal) : Option ℚ :=
  (parseNumeric stochastic).map (fun v => (v - 50) / 50)

/-- StochRSI (14): `(StochRSI - 0.5) / 0.5`. -/
def normalizeStochRSI (stochRSI : JSVal) : Option ℚ :=
  (parseNumeric stochRSI).map (fun v => (v - (1 / 2)) / (1 / 2))

/-- Williams %R: `(WilliamsR + 50) / 50`. -/
def normalizeWilliamsR (williamsR : JSVal) : Option ℚ :=
  (parseNumeric williamsR).map (fun v => (v + 50) / 50)

/-- ROC: `ROC / 100`. -/
def normalizeROC (roc : JSVal) : Option ℚ :=
  (parseNumeric roc).map (fun v => v / 100)

/-- Ultimate Oscillator: `(UltOsc - 50) / 50`. -/
def normalizeUltimateOscillator (ultimateOsc : JSVal) : Option ℚ :=
  (parseNumeric ultimateOsc).map (fun v => (v - 50) / 50)

/-- MACD: `(MACD - Signal) / ABS(Signal)`, `null` when either input is
`null` or `|signal| = 0`. -/
def normalizeMacd (macd signal : JSVal) : Option ℚ :=
  match parseNumeric macd, parseNumeric signal with
  | some macdValue, some signalValue =>
    if |signalValue| = 0 then none
    else some ((macdValue - signalValue) / |signalValue|)
  | _, _ => none

/-- Moving averages: `(ShortMA - LongMA) / LongMA`, `null` when either is
`null` or the long MA is zero. -/
def normalizeMovingAverageTrend (shortMA longMA : JSVal) : Option ℚ :=
  match parseNumeric shortMA, parseNumeric longMA with
  | some s, some l => if l = 0 then none else some ((s - l) / l)
  | _, _ => none

/-- Bull/Bear Power (13): `BullBear / ATR`, `null` when either is `null`
or ATR is zero. -/
def normalizeBullBearPower (bullBear atr : JSVal) : Option ℚ :=
  match parseNumeric bullBear, parseNumeric atr with
  | some bb, some a => if a = 0 then none else some (bb / a)
  | _, _ => none

/-- ATR (14): `ATR / Close`, `null` when either is `null` or the close is
zero. -/
def normalizeATR (atr close : JSVal) : Option ℚ :=
  match parseNumeric atr, parseNumeric close with
  | some a, some c => if c = 0 then none else some (a / c)
  | _, _ => none

/-- Highs/Lows (14): `(Close - Low14) / (High14 - Low14)`, `null` when any
input is `null` or the 14-period range is zero. -/
def normalizeHighsLows (close high14 low14 : JSVal) : Option ℚ :=
  match parseNumeric close, parseNumeric high14, parseNumeric low14 with
  | some c, some h, some l => if h - l = 0 then none else some ((c - l) / (h - l))
  | _, _, _ => none

/-- ADX (14): `(ADX - 25) / 25`. -/
def normalizeADX (adx : JSVal) : Option ℚ :=
  (parseNumeric adx).map (fun v => (v - 25) / 25)

/-- CCI (14): `CCI / 200`. -/
def normalizeCCI (cci : JSVal) : Option ℚ :=
  (parseNumeric cci).map (fun v => v / 200)

/-- Generic pivot normalization: `(Close - Pivot) / (R1 - S1)`, `null`
when any input is `null` or `R1 = S1`. -/
def normalizePivotGeneric (close pivot r1 s1 : JSVal) : Option ℚ :=
  match parseNumeric close, parseNumeric pivot, parseNumeric r1, parseNumeric s1 with
  | some c, some p, some r, some s => if r - s = 0 then none else some ((c - p) / (r - s))
  | _, _, _, _ => none

/-- Pivot (Classic). -/
def normalizePivotClassic (close pivot r1 s1 : JSVal) : Option ℚ :=
  normalizePivotGeneric close pivot r1 s1

/-- Pivot (Fibonacci). -/
def normalizePivotFibonacci (close fibPivot fibR1 fibS1 : JSVal) : Option ℚ :=
  normalizePivotGeneric close fibPivot fibR1 fibS1

/-- Pivot (Camarilla). -/
def normalizePivotCamarilla (close camPivot camR1 camS1 : JSVal) : Option ℚ :=
  normalizePivotGeneric close camPivot camR1 camS1

/-- Pivot (Woodie). -/
def normalizePivotWoodie (close woodiePivot woodieR1 woodieS1 : JSVal) : Option ℚ :=
  normalizePivotGeneric close woodiePivot woodieR1 woodieS1

/-- Pivot (DeMark). -/
def normalizePivotDeMark (close demarkPivot demarkR1 demarkS1 : JSVal) : Option ℚ :=
  normalizePivotGeneric close demarkPivot demarkR1 demarkS1

/-- `calculateAverage`: arithmetic mean of the non-`null` members, `null`
when no member is non-`null`.  (The source also filters `NaN`, which does
not exist in the exact-rational model.) -/
def calculateAverage (values : List (Option ℚ)) : Option ℚ :=
  let validValues := values.filterMap id
  if validValues.isEmpty then none
  else some (validValues.sum / validValues.length)

/-- `calculateMomentumScore`: average of the six normalized momentum
oscillators, computed from the raw values. -/
def calculateMomentumScore (rsi stochastic stochRSI williamsR roc ultimateOsc : JSVal) : Option ℚ :=
  calculateAverage
    [normalizeRSI rsi,
     normalizeStochastic stochastic,
     normalizeStochRSI stochRSI,
     normalizeWilliamsR williamsR,
     normalizeROC roc,
     normalizeUltimateOscillator ultimateOsc]

/-- `calculateTrendScore`: average of the (variadic) trend members. -/
def calculateTrendScore (trendValues : List (Option ℚ)) : Option ℚ :=
  calculateAverage trendValues

/-- `calculateVolatilityScore`: average of ATR and Highs/Lows. -/
def calculateVolatilityScore (atrNorm highsLowsNorm : Option ℚ) : Option ℚ :=
  calculateAverage [atrNorm, highsLowsNorm]

/-- `calculateStrengthScore`: average of ADX and CCI. -/
def calculateStrengthScore (adxNorm cciNorm : Option ℚ) : Option ℚ :=
  calculateAverage [adxNorm, cciNorm]

/-- `calculateSupportResistanceScore`: average of the (variadic) pivot
members. -/
def calculateSupportResistanceScore (pivotValues : List (Option ℚ)) : Option ℚ :=
  calculateAverage pivotValues

/-- `NormalizationCalculator.calculateOverallScore`: each non-`null`
category score is multiplied by its weight (momentum `0.25`, trend `0.30`,
volatility `0.15`, strength `0.20`, support/resistance `0.10`) and pushed
onto a list; the result is `null` when the list is empty, and the plain sum
of the list otherwise (no renormalization over missing categories). -/
def calculateOverallScore
    (momentumScore trendScore volatilityScore strengthScore supportResistanceScore : Option ℚ) :
    Option ℚ :=
  let weightedScores : List ℚ :=
    (match momentumScore with | some x => [x * (25 / 100)] | none => []) ++
    (match trendScore with | some x => [x * (30 / 100)] | none => []) ++
    (match volatilityScore with | some x => [x * (15 / 100)] | none => []) ++
    (match strengthScore with | some x => [x * (20 / 100)] | none => []) ++
    (match supportResistanceScore with | some x => [x * (10 / 100)] | none => [])
  if weightedScores.isEmpty then none else some weightedScores.sum

/-- A raw KPI record, as the engine receives it: a lookup from field name
to JavaScript value (a missing key reads as `null`/`undefined`). -/
def KpiData : Type := String → JSVal

/-- The current price used inside `normalizeKpiData`
(`kpiData.current_price || kpiData.ma20_simple_value || kpiData.ma50_simple_value`):
the engine's own fallback chain stops at MA50 and never consults MA200. -/
def estimateCurrentPrice (kpiData : KpiData) : JSVal :=
  jsOr (jsOr (kpiData "current_price") (kpiData "ma20_simple_value")) (kpiData "ma50_simple_value")

/-- The record returned by `normalizeKpiData`. -/
structure NormalizedRecord where
  ticker : JSVal
  fetch_date : JSVal
  fetch_time : JSVal
  rsi_normalized : Option ℚ
  stochastic_normalized : Option ℚ
  stochrsi_normalized : Option ℚ
  williams_r_normalized : Option ℚ
  roc_normalized : Option ℚ
  ultimate_oscillator_normalized : Option ℚ
  macd_normalized : Option ℚ
  ma_trend_5_10_normalized : Option ℚ
  ma_trend_10_20_normalized : Option ℚ
  ma_trend_20_50_normalized : Option ℚ
  ma_trend_20_200_normalized : Option ℚ
  ma_trend_50_100_normalized : Option ℚ
  ma_trend_100_200_normalized : Option ℚ
  ma_trend_50_200_normalized : Option ℚ
  bull_bear_power_normalized : Option ℚ
  atr_normalized : Option ℚ
  highs_lows_normalized : Option ℚ
  adx_normalized : Option ℚ
  cci_normalized : Option ℚ
  pivot_classic_normalized : Option ℚ
  pivot_fibonacci_normalized : Option ℚ
  pivot_camarilla_normalized : Option ℚ
  pivot_woodie_normalized : Option ℚ
  pivot_demark_normalized : Option ℚ
  momentum_score : Option ℚ
  trend_score : Option ℚ
  volatility_score : Option ℚ
  strength_score : Option ℚ
  support_resistance_score : Option ℚ
  overall_score : Option ℚ
deriving DecidableEq

/-- `NormalizationCalculator.normalizeKpiData`: the full engine, one raw
record in, one normalized record out. -/
def normalizeKpiData (kpiData : KpiData) : NormalizedRecord :=
  let currentPrice := estimateCurrentPrice kpiData
  let rsi_normalized := normalizeRSI (kpiData "rsi_value")
  let stochastic_normalized := normalizeStochastic (kpiData "stochastic_value")
  let stochrsi_normalized := normalizeStochRSI (kpiData "stochrsi_value")
  let williams_r_normalized := normalizeWilliamsR (kpiData "williams_r_value")
  let roc_normalized := normalizeROC (kpiData "roc_value")
  let ultimate_oscillator_normalized := normalizeUltimateOscillator (kpiData "ultimate_oscillator_value")
  let macd_normalized := normalizeMacd (kpiData "macd_value") (kpiData "macd_signal")
  let ma_trend_5_10_normalized := normalizeMovingAverageTrend (kpiData "ma5_simple_value") (kpiData "ma10_simple_value")
  let ma_trend_10_20_normalized := normalizeMovingAverageTrend (kpiData "ma10_simple_value") (kpiData "ma20_simple_value")
  let ma_trend_20_50_normalized := normalizeMovingAverageTrend (kpiData "ma20_simple_value") (kpiData "ma50_simple_value")
  let ma_trend_50_100_normalized := normalizeMovingAverageTrend (kpiData "ma50_simple_value") (kpiData "ma100_simple_value")
  let ma_trend_100_200_normalized := normalizeMovingAverageTrend (kpiData "ma100_simple_value") (kpiData "ma200_simple_value")
  let ma_trend_20_200_normalized := normalizeMovingAverageTrend (kpiData "ma20_simple_value") (kpiData "ma200_simple_value")
  let ma_trend_50_200_normalized := normalizeMovingAverageTrend (kpiData "ma50_simple_value") (kpiData "ma200_simple_value")
  let bull_bear_power_normalized := normalizeBullBearPower (kpiData "bull_bear_power_value") (kpiData "atr_value")
  let atr_normalized := normalizeATR (kpiData "atr_value") currentPrice
  let highs_lows_normalized := normalizeHighsLows currentPrice (kpiData "high_14") (kpiData "low_14")
  let adx_normalized := normalizeADX (kpiData "adx_value")
  let cci_normalized := normalizeCCI (kpiData "cci_value")
  let pivot_classic_normalized := normalizePivotClassic currentPrice (kpiData "classic_pivot") (kpiData "classic_r1") (kpiData "classic_s1")
  let pivot_fibonacci_normalized := normalizePivotFibonacci currentPrice (kpiData "fibonacci_pivot") (kpiData "fibonacci_r1") (kpiData "fibonacci_s1")
  let pivot_camarilla_normalized := normalizePivotCamarilla currentPrice (kpiData "camarilla_pivot") (kpiData "camarilla_r1") (kpiData "camarilla_s1")
  let pivot_woodie_normalized := normalizePivotWoodie currentPrice (kpiData "woodie_pivot") (kpiData "woodie_r1") (kpiData "woodie_s1")
  let pivot_demark_normalized := normalizePivotDeMark currentPrice (kpiData "demark_pivot") (kpiData "demark_r1") (kpiData "demark_s1")
  let momentum_score := calculateMomentumScore
    (kpiData "rsi_value") (kpiData "stochastic_value") (kpiData "stochrsi_value")
    (kpiData "williams_r_value") (kpiData "roc_value") (kpiData "ultimate_oscillator_value")
  let trend_score := calculateTrendScore
    [macd_normalized,
     ma_trend_5_10_normalized,
     ma_trend_10_20_normalized,
     ma_trend_20_50_normalized,
     ma_trend_50_100_normalized,
     ma_trend_100_200_normalized,
     ma_trend_20_200_normalized,
     ma_trend_50_200_normalized,
     bull_bear_power_normalized]
  let volatility_score := calculateVolatilityScore atr_normalized highs_lows_normalized
  let strength_score := calculateStrengthScore adx_normalized cci_normalized
  let support_resistance_score := calculateSupportResistanceScore
    [pivot_classic_normalized,
     pivot_fibonacci_normalized,
     pivot_camarilla_normalized,
     pivot_woodie_normalized,
     pivot_demark_normalized]
  let overall_score := calculateOverallScore
    momentum_score trend_score volatility_score strength_score support_resistance_score
  { ticker := kpiData "ticker"
    fetch_date := kpiData "fetch_date"
    fetch_time := kpiData "fetch_time"
    rsi_normalized := rsi_normalized
    stochastic_normalized := stochastic_normalized
    stochrsi_normalized := stochrsi_normalized
    williams_r_normalized := williams_r_normalized
    roc_normalized := roc_normalized
    ultimate_oscillator_normalized := ultimate_oscillator_normalized
    macd_normalized := macd_normalized
    ma_trend_5_10_normalized := ma_trend_5_10_normalized
    ma_trend_10_20_normalized := ma_trend_10_20_normalized
    ma_trend_20_50_normalized := ma_trend_20_50_normalized
    ma_trend_20_200_normalized := ma_trend_20_200_normalized
    ma_trend_50_100_normalized := ma_trend_50_100_normalized
    ma_trend_100_200_normalized := ma_trend_100_200_normalized
    ma_trend_50_200_normalized := ma_trend_50_200_normalized
    bull_bear_power_normalized := bull_bear_power_normalized
    atr_normalized := atr_normalized
    highs_lows_normalized := highs_lows_normalized
    adx_normalized := adx_normalized
    cci_normalized := cci_normalized
    pivot_classic_normalized := pivot_classic_normalized
    pivot_fibonacci_normalized := pivot_fibonacci_normalized
    pivot_camarilla_normalized := pivot_camarilla_normalized
    pivot_woodie_normalized := pivot_woodie_normalized
    pivot_demark_normalized := pivot_demark_normalized
    momentum_score := momentum_score
    trend_score := trend_score
    volatility_score := volatility_score
    strength_score := strength_score
    support_resistance_score := support_resistance_score
    overall_score := overall_score }

/-- The only instance state of `NormalizationCalculator`: the `defaults`
table set in the constructor.  No method of the class ever reads or writes
it during normalization. -/
structure CalculatorState where
  rsi : ℚ
  stochastic : ℚ
  stochrsi : ℚ
  williamsR : ℚ
  roc : ℚ
  ultimateOscillator : ℚ
  adx : ℚ
  cci : ℚ
deriving DecidableEq

/-- The `defaults` values installed by the constructor. -/
def initialCalculatorState : CalculatorState :=
  { rsi := 50, stochastic := 50, stochrsi := 1 / 2, williamsR := -50,
    roc := 0, ultimateOscillator := 50, adx := 25, cci := 0 }

/-- `normalizeKpiData` as a state-passing computation over the calculator's
instance state.  The method body contains no assignment to any instance
field and no read of `this.defaults`, so the state is threaded through
unchanged and the output depends on the input record alone. -/
def normalizeKpiDataSt (st : CalculatorState) (kpiData : KpiData) :
    NormalizedRecord × CalculatorState :=
  (normalizeKpiData kpiData, st)

/-- `DatabaseManager.calculateAverage` (the composite path's copy): mean
over members that are neither `null` nor `undefined` nor `NaN`; `null`
when none remain. -/
def dbCalculateAverage (values : List (Option ℚ)) : Option ℚ :=
  let validValues := values.filterMap id
  if validValues.isEmpty then none
  else some (validValues.sum / validValues.length)

/-- The five components plus composite score returned by
`DatabaseManager.computeCompositeComponents`. -/
structure CompositeComponents where
  momentumComponent : Option ℚ
  trendComponent : Option ℚ
  volatilityComponent : Option ℚ
  strengthComponent : Option ℚ
  supportComponent : Option ℚ
  compositeScore : Option ℚ
deriving DecidableEq

/-- `DatabaseManager.computeCompositeComponents`: recomputes the five
category components from the stored normalized fields and combines the
non-`null` ones with weights momentum `0.25`, trend `0.35`, volatility
`0.15`, strength `0.15`, support `0.10`; the composite is `null` when no
component contributed. -/
def computeCompositeComponents (normalizedData : NormalizedRecord) : CompositeComponents :=
  let momentumComponent := dbCalculateAverage
    [normalizedData.rsi_normalized,
     normalizedData.stochastic_normalized,
     normalizedData.stochrsi_normalized,
     normalizedData.williams_r_normalized,
     normalizedData.roc_normalized,
     normalizedData.ultimate_oscillator_normalized]
  let trendComponent := dbCalculateAverage
    [normalizedData.macd_normalized,
     normalizedData.ma_trend_5_10_normalized,
     normalizedData.ma_trend_10_20_normalized,
     normalizedData.ma_trend_20_50_normalized,
     normalizedData.ma_trend_50_100_normalized,
     normalizedData.ma_trend_100_200_normalized,
     normalizedData.ma_trend_20_200_normalized,
     normalizedData.ma_trend_50_200_normalized,
     normalizedData.bull_bear_power_normalized]
  let volatilityComponent := dbCalculateAverage
    [normalizedData.atr_normalized, normalizedData.highs_lows_normalized]
  let strengthComponent := dbCalculateAverage
    [normalizedData.adx_normalized, normalizedData.cci_normalized]
  let supportComponent := dbCalculateAverage
    [normalizedData.pivot_classic_normalized,
     normalizedData.pivot_fibonacci_normalized,
     normalizedData.pivot_camarilla_normalized,
     normalizedData.pivot_woodie_normalized,
     normalizedData.pivot_demark_normalized]
  let contributions : List ℚ :=
    (match momentumComponent with | some x => [x * (25 / 100)] | none => []) ++
    (match trendComponent with | some x => [x * (35 / 100)] | none => []) ++
    (match volatilityComponent with | some x => [x * (15 / 100)] | none => []) ++
    (match strengthComponent with | some x => [x * (15 / 100)] | none => []) ++
    (match supportComponent with | some x => [x * (10 / 100)] | none => [])
  { momentumComponent := momentumComponent
    trendComponent := trendComponent
    volatilityComponent := volatilityComponent
    strengthComponent := strengthComponent
    supportComponent := supportComponent
    compositeScore := if contributions.isEmpty then none else some contributions.sum }

/-- `DataParser.columnMapping`: the static header-label → field-name
dictionary. -/
def columnMapping : List (String × String) :=
  [("Ticker", "ticker"),
   ("Company_Name", "company_name"),
   ("TI_Summary", "ti_summary"),
   ("TI_Buy_Count", "ti_buy_count"),
   ("TI_Neutral_Count", "ti_neutral_count"),
   ("TI_Sell_Count", "ti_sell_count"),
   ("MA_Summary", "ma_summary"),
   ("MA_Buy_Count", "ma_buy_count"),
   ("MA_Sell_Count", "ma_sell_count"),
   ("RSI_Value", "rsi_value"),
   ("RSI_Action", "rsi_action"),
   ("Stochastic_Value", "stochastic_value"),
   ("Stochastic_Action", "stochastic_action"),
   ("StochRSI_Value", "stochrsi_value"),
   ("StochRSI_Action", "stochrsi_action"),
   ("Williams_R_Value", "williams_r_value"),
   ("Williams_R_Action", "williams_r_action"),
   ("ROC_Value", "roc_value"),
   ("ROC_Action", "roc_action"),
   ("Ultimate_Oscillator_Value", "ultimate_oscillator_value"),
   ("Ultimate_Oscillator_Action", "ultimate_oscillator_action"),
   ("MACD_Value", "macd_value"),
   ("MACD_Action", "macd_action"),
   ("MACD_Signal", "macd_signal"),
   ("Bull_Bear_Power_Value", "bull_bear_power_value"),
   ("Bull_Bear_Power_Action", "bull_bear_power_action"),
   ("ADX_Value", "adx_value"),
   ("ADX_Action", "adx_action"),
   ("CCI_Value", "cci_value"),
   ("CCI_Action", "cci_action"),
   ("MA5_Simple_Value", "ma5_simple_value"),
   ("MA5_Simple_Action", "ma5_simple_action"),
   ("MA5_Exp_Value", "ma5_exp_value"),
   ("MA5_Exp_Action", "ma5_exp_action"),
   ("MA10_Simple_Value", "ma10_simple_value"),
   ("MA10_Simple_Action", "ma10_simple_action"),
   ("MA10_Exp_Value", "ma10_exp_value"),
   ("MA10_Exp_Action", "ma10_exp_action"),
   ("MA20_Simple_Value", "ma20_simple_value"),
   ("MA20_Simple_Action", "ma20_simple_action"),
   ("MA20_Exp_Value", "ma20_exp_value"),
   ("MA20_Exp_Action", "ma20_exp_action"),
   ("MA50_Simple_Value", "ma50_simple_value"),
   ("MA50_Simple_Action", "ma50_simple_action"),
   ("MA50_Exp_Value", "ma50_exp_value"),
   ("MA50_Exp_Action", "ma50_exp_action"),
   ("MA100_Simple_Value", "ma100_simple_value"),
   ("MA100_Simple_Action", "ma100_simple_action"),
   ("MA100_Exp_Value", "ma100_exp_value"),
   ("MA100_Exp_Action", "ma100_exp_action"),
   ("MA200_Simple_Value", "ma200_simple_value"),
   ("MA200_Simple_Action", "ma200_simple_action"),
   ("MA200_Exp_Value", "ma200_exp_value"),
   ("MA200_Exp_Action", "ma200_exp_action"),
   ("Classic_S3", "classic_s3"),
   ("Classic_S2", "classic_s2"),
   ("Classic_S1", "classic_s1"),
   ("Classic_Pivot", "classic_pivot"),
   ("Classic_R1", "classic_r1"),
   ("Classic_R2", "classic_r2"),
   ("Classic_R3", "classic_r3"),
   ("Fibonacci_S3", "fibonacci_s3"),
   ("Fibonacci_S2", "fibonacci_s2"),
   ("Fibonacci_S1", "fibonacci_s1"),
   ("Fibonacci_Pivot", "fibonacci_pivot"),
   ("Fibonacci_R1", "fibonacci_r1"),
   ("Fibonacci_R2", "fibonacci_r2"),
   ("Fibonacci_R3", "fibonacci_r3"),
   ("Camarilla_S3", "camarilla_s3"),
   ("Camarilla_S2", "camarilla_s2"),
   ("Camarilla_S1", "camarilla_s1"),
   ("Camarilla_Pivot", "camarilla_pivot"),
   ("Camarilla_R1", "camarilla_r1"),
   ("Camarilla_R2", "camarilla_r2"),
   ("Camarilla_R3", "camarilla_r3"),
   ("Woodie_S3", "woodie_s3"),
   ("Woodie_S2", "woodie_s2"),
   ("Woodie_S1", "woodie_s1"),
   ("Woodie_Pivot", "woodie_pivot"),
   ("Woodie_R1", "woodie_r1"),
   ("Woodie_R2", "woodie_r2"),
   ("Woodie_R3", "woodie_r3"),
   ("DeMark_S1", "demark_s1"),
   ("DeMark_Pivot", "demark_pivot"),
   ("DeMark_R1", "demark_r1")]

/-- Object-key lookup in `columnMapping`. -/
def lookupMapping (header : String) : Option String :=
  (columnMapping.find? (fun p => p.1 = header)).map Prod.snd

/-- JavaScript `String.prototype.includes`. -/
def strIncludes (s pat : String) : Bool :=
  s.data.tails.any (fun t => pat.data.isPrefixOf t)

/-- The substring patterns `rowToKpiData` tests, in source order. -/
def numericFieldPats : List String :=
  ["_count", "_value", "_s1", "_s2", "_s3", "_r1", "_r2", "_r3", "_pivot"]

/-- The `fieldName.includes(...)` disjunction deciding that a mapped field
is numeric. -/
def isNumericField (fieldName : String) : Bool :=
  numericFieldPats.any (fun p => strIncludes fieldName p)

/-- The per-cell cleanup of `rowToKpiData`: the literals `"N/A"`, `""`,
`"-"` become `null`; a numeric-named field is parsed with `parseFloat`,
`NaN` becoming `null`; any other cell is kept as the string it is. -/
def cellValue (fieldName cell : String) : JSVal :=
  if cell = "N/A" ∨ cell = "" ∨ cell = "-" then .jsNull
  else if isNumericField fieldName then
    match parseFloatJS cell with
    | none => .jsNull
    | some q => .num q
  else .str cell

/-- The record literal opening `rowToKpiData`: `fetch_date` and
`fetch_time` from the arguments, every other field `null` (an unknown key
reads as `undefined` in JS, merged with `null` here). -/
def initKpiData (fetchDate fetchTime : String) : KpiData :=
  fun f =>
    if f = "fetch_date" then .str fetchDate
    else if f = "fetch_time" then .str fetchTime
    else .jsNull

/-- Assignment `kpiData[fieldName] = value`. -/
def updateField (kpiData : KpiData) (fieldName : String) (v : JSVal) : KpiData :=
  fun f => if f = fieldName then v else kpiData f

/-- The `headers.forEach` loop of `rowToKpiData`: for each header present
in the dictionary and within row bounds, store the cleaned cell. -/
def mapRowFields (headers row : List String) (kpiData : KpiData) : KpiData :=
  headers.enum.foldl
    (fun acc ih =>
      match lookupMapping ih.2 with
      | some fieldName =>
        if ih.1 < row.length then updateField acc fieldName (cellValue fieldName (row.getD ih.1 ""))
        else acc
      | none => acc)
    kpiData

/-- The current-price estimate at the end of `rowToKpiData`: when
`current_price` is falsy it becomes
`ma20_simple_value || ma50_simple_value || ma200_simple_value`. -/
def applyPriceFallback (kpiData : KpiData) : KpiData :=
  if truthy (kpiData "current_price") then kpiData
  else
    updateField kpiData "current_price"
      (jsOr (jsOr (kpiData "ma20_simple_value") (kpiData "ma50_simple_value"))
        (kpiData "ma200_simple_value"))

/-- The MACD-signal estimate at the end of `rowToKpiData`: when
`macd_value` is truthy and `macd_signal` is falsy, `macd_signal` becomes
`macd_value * 0.9`.  At this point `macd_value` is a number or `null`
(it was stored through the numeric branch of the cleanup), so only the
numeric case arises. -/
def applyMacdSignalFallback (kpiData : KpiData) : KpiData :=
  match kpiData "macd_value" with
  | .num q =>
    if q ≠ 0 ∧ ¬ truthy (kpiData "macd_signal") then
      updateField kpiData "macd_signal" (.num (q * (9 / 10)))
    else kpiData
  | _ => kpiData

/-- `DataParser.rowToKpiData`: initialize, map the cells, then apply the
current-price and MACD-signal estimates. -/
def rowToKpiData (headers row : List String) (fetchDate fetchTime : String) : KpiData :=
  applyMacdSignalFallback (applyPriceFallback (mapRowFields headers row (initKpiData fetchDate fetchTime)))

/-- A token of the `marked` lexer, as far as the table parser inspects it:
a table with header cells and row cells, or anything else.  Cells are
modelled as the plain strings the string branch of `extractPlainText`
receives; the rich-markup branches of the extractor reduce a cell to such
a string before trimming. -/
inductive MdToken where
  | table (header : List String) (rows : List (List String)) : MdToken
  | nonTable : MdToken
deriving DecidableEq

/-- The string branch of `extractPlainText`: trim. -/
def extractPlainText (cell : String) : String := cell.trim

/-- `token.type === 'table' && token.header?.length`. -/
def isTableWithHeader : MdToken → Bool
  | .table header _ => !header.isEmpty
  | .nonTable => false

/-- The `{ headers, rows }` result of the table parser. -/
structure ParsedTable where
  headers : List String
  rows : List (List String)
deriving DecidableEq

/-- `parseMarkdownTable` (identical in `server.js` and `DataParser`):
empty or absent input, or no table token with a nonempty header, give the
empty result; otherwise the first table token with a nonempty header is
extracted, every cell reduced to trimmed plain text.  The lexer is the
external `marked` library, taken here as a parameter. -/
def parseMarkdownTable (lexer : String → List MdToken) (markdown : Option String) : ParsedTable :=
  match markdown with
  | none => { headers := [], rows := [] }
  | some md =>
    if md = "" then { headers := [], rows := [] }
    else
      match (lexer md).find? isTableWithHeader with
      | some (.table header rows) =>
        { headers := header.map extractPlainText
          rows := rows.map (fun r => r.map extractPlainText) }
      | _ => { headers := [], rows := [] }

/-- The raw-record invariant of the data model: a numeric field holds a
finite number or `null`, never a string. -/
def NumOrNull (v : JSVal) : Prop := v = .jsNull ∨ ∃ q, v = .num q

/-- The numeric raw fields `normalizeKpiData` reads. -/
def engineNumericFields : List String :=
  ["current_price", "rsi_value", "stochastic_value", "stochrsi_value",
   "williams_r_value", "roc_value", "ultimate_oscillator_value",
   "macd_value", "macd_signal",
   "ma5_simple_value", "ma10_simple_value", "ma20_simple_value",
   "ma50_simple_value", "ma100_simple_value", "ma200_simple_value",
   "bull_bear_power_value", "atr_value", "high_14", "low_14",
   "adx_value", "cci_value",
   "classic_pivot", "classic_r1", "classic_s1",
   "fibonacci_pivot", "fibonacci_r1", "fibonacci_s1",
   "camarilla_pivot", "camarilla_r1", "camarilla_s1",
   "woodie_pivot", "woodie_r1", "woodie_s1",
   "demark_pivot", "demark_r1", "demark_s1"]

/-- A stored normalized record in which only one momentum member and one
trend member are present; used to exercise the composite weighting. -/
def momentumTrendOnlyRecord (m t : ℚ) : NormalizedRecord :=
  { ticker := .jsNull
    fetch_date := .jsNull
    fetch_time := .jsNull
    rsi_normalized := some m
    stochastic_normalized := none
    stochrsi_normalized := none
    williams_r_normalized := none
    roc_normalized := none
    ultimate_oscillator_normalized := none
    macd_normalized := some t
    ma_trend_5_10_normalized := none
    ma_trend_10_20_normalized := none
    ma_trend_20_50_normalized := none
    ma_trend_20_200_normalized := none
    ma_trend_50_100_normalized := none
    ma_trend_100_200_normalized := none
    ma_trend_50_200_normalized := none
    bull_bear_power_normalized := none
    atr_normalized := none
    highs_lows_normalized := none
    adx_normalized := none
    cci_normalized := none
    pivot_classic_normalized := none
    pivot_fibonacci_normalized := none
    pivot_camarilla_normalized := none
    pivot_woodie_normalized := none
    pivot_demark_normalized := none
    momentum_score := some m
    trend_score := some t
    volatility_score := none
    strength_score := none
    support_resistance_score := none
    overall_score := none }

/-! ## Helper lemmas -/

theorem numOrNull_jsOr {a b : JSVal} (ha : NumOrNull a) (hb : NumOrNull b) :
    NumOrNull (jsOr a b) := by
  unfold jsOr
  split <;> assumption

theorem parseNumeric_num (q : ℚ) : parseNumeric (.num q) = some q := rfl

theorem parseNumeric_jsNull : parseNumeric .jsNull = none := rfl

theorem parseNumeric_eq_none_iff {v : JSVal} (h : NumOrNull v) :
    parseNumeric v = none ↔ v = .jsNull := by
  rcases h with h | ⟨q, h⟩ <;> subst h <;> simp [parseNumeric]

theorem parseNumeric_eq_some_zero_iff {v : JSVal} (h : NumOrNull v) :
    parseNumeric v = some 0 ↔ v = .num 0 := by
  rcases h with h | ⟨q, h⟩ <;> subst h <;> simp [parseNumeric]

theorem normalizeMacd_eq_none_iff {m s : JSVal} (hm : NumOrNull m) (hs : NumOrNull s) :
    normalizeMacd m s = none ↔ m = .jsNull ∨ s = .jsNull ∨ s = .num 0 := by
  rcases hm with hm | ⟨q, hm⟩ <;> rcases hs with hs | ⟨p, hs⟩ <;> subst hm <;> subst hs <;>
    simp [normalizeMacd, parseNumeric, abs_eq_zero]

theorem normalizeMovingAverageTrend_eq_none_iff {a b : JSVal}
    (ha : NumOrNull a) (hb : NumOrNull b) :
    normalizeMovingAverageTrend a b = none ↔ a = .jsNull ∨ b = .jsNull ∨ b = .num 0 := by
  rcases ha with ha | ⟨q, ha⟩ <;> rcases hb with hb | ⟨p, hb⟩ <;> subst ha <;> subst hb <;>
    simp [normalizeMovingAverageTrend, parseNumeric]

theorem normalizeBullBearPower_eq_none_iff {a b : JSVal}
    (ha : NumOrNull a) (hb : NumOrNull b) :
    normalizeBullBearPower a b = none ↔ a = .jsNull ∨ b = .jsNull ∨ b = .num 0 := by
  rcases ha with ha | ⟨q, ha⟩ <;> rcases hb with hb | ⟨p, hb⟩ <;> subst ha <;> subst hb <;>
    simp [normalizeBullBearPower, parseNumeric]

theorem normalizeATR_eq_none_iff {a c : JSVal} (ha : NumOrNull a) (hc : NumOrNull c) :
    normalizeATR a c = none ↔ a = .jsNull ∨ c = .jsNull ∨ c = .num 0 := by
  rcases ha with ha | ⟨q, ha⟩ <;> rcases hc with hc | ⟨p, hc⟩ <;> subst ha <;> subst hc <;>
    simp [normalizeATR, parseNumeric]

theorem normalizeHighsLows_eq_none_iff {c hi lo : JSVal}
    (hc : NumOrNull c) (hh : NumOrNull hi) (hl : NumOrNull lo) :
    normalizeHighsLows c hi lo = none ↔
      c = .jsNull ∨ hi = .jsNull ∨ lo = .jsNull ∨ hi = lo := by
  rcases hc with hc | ⟨q, hc⟩ <;> rcases hh with hh | ⟨p, hh⟩ <;>
    rcases hl with hl | ⟨u, hl⟩ <;> subst hc <;> subst hh <;> subst hl <;>
    simp [normalizeHighsLows, parseNumeric, sub_eq_zero]

theorem normalizePivotGeneric_eq_none_iff {c p r s : JSVal}
    (hc : NumOrNull c) (hp : NumOrNull p) (hr : NumOrNull r) (hs : NumOrNull s) :
    normalizePivotGeneric c p r s = none ↔
      c = .jsNull ∨ p = .jsNull ∨ r = .jsNull ∨ s = .jsNull ∨ r = s := by
  rcases hc with hc | ⟨q1, hc⟩ <;> rcases hp with hp | ⟨q2, hp⟩ <;>
    rcases hr with hr | ⟨q3, hr⟩ <;> rcases hs with hs | ⟨q4, hs⟩ <;>
    subst hc <;> subst hp <;> subst hr <;> subst hs <;>
    simp [normalizePivotGeneric, parseNumeric, sub_eq_zero]

theorem calculateAverage_eq_none_iff (values : List (Option ℚ)) :
    calculateAverage values = none ↔ ∀ v ∈ values, v = none := by
  have key : values.filterMap id = [] ↔ ∀ v ∈ values, v = none := by
    simp [List.filterMap_eq_nil_iff]
  by_cases hv : values.filterMap id = []
  · have hnone : calculateAverage values = none := by simp [calculateAverage, hv]
    rw [hnone]
    exact iff_of_true rfl (key.mp hv)
  · have hne : ¬ ∀ v ∈ values, v = none := fun hc => hv (key.mpr hc)
    simp [calculateAverage, List.isEmpty_iff, hv, hne]

theorem parseNumeric_map_eq_none_iff {v : JSVal} (h : NumOrNull v) (f : ℚ → ℚ) :
    (parseNumeric v).map f = none ↔ v = .jsNull := by
  rw [Option.map_eq_none', parseNumeric_eq_none_iff h]

/-! ## Claims -/

/-- C5: every transform with a zero denominator returns `null` rather than
`Infinity` or `NaN`: a zero MACD signal, a degenerate 14-period range
(`high = low`), a degenerate pivot band (`R1 = S1`), and a zero long
moving average each give a `null` normalized value, for every value of
the other arguments. -/
theorem zero_denominator_gives_null :
    (∀ macd : JSVal, normalizeMacd macd (.num 0) = none) ∧
    (∀ price hl : JSVal, normalizeHighsLows price hl hl = none) ∧
    (∀ close pivot rs : JSVal, normalizePivotGeneric close pivot rs rs = none) ∧
    (∀ s : JSVal, normalizeMovingAverageTrend s (.num 0) = none) := by
  refine ⟨fun macd => ?_, fun price hl => ?_, fun close pivot rs => ?_, fun s => ?_⟩
  · cases hp : parseNumeric macd <;> simp [normalizeMacd, hp, parseNumeric_num]
  · cases hp : parseNumeric price <;> cases hh : parseNumeric hl <;>
      simp [normalizeHighsLows, hp, hh]
  · cases hc : parseNumeric close <;> cases hv : parseNumeric pivot <;>
      cases hr : parseNumeric rs <;> simp [normalizePivotGeneric, hc, hv, hr]
  · cases hs : parseNumeric s <;> simp [normalizeMovingAverageTrend, hs, parseNumeric_num]

/-- C6: `calculateAverage` is the arithmetic mean of the non-`null`
members: `[]` and `[null, null]` give `null` (not `0`),
`[0.2, null, 0.4]` gives `0.3`, and in general the average is `null`
exactly when every member is `null` — hence a category score is `null`
only if all of its members are. -/
theorem calculateAverage_mean_spec :
    calculateAverage [] = none ∧
    calculateAverage [none, none] = none ∧
    calculateAverage [some (2 / 10), none, some (4 / 10)] = some (3 / 10) ∧
    (∀ values : List (Option ℚ), calculateAverage values = none ↔ ∀ v ∈ values, v = none) := by
  refine ⟨rfl, rfl, ?_, calculateAverage_eq_none_iff⟩
  simp [calculateAverage]
  norm_num

/-- C7: the numeric-coercion primitive `parseNumeric` returns numeric
input unchanged; a string is stripped of every character that is not a
digit, a decimal point or a minus sign and the remainder parsed as a
float; `null`/`undefined` and unparseable input give `null`, never `NaN`
(the codomain `Option ℚ` has no `NaN`, and the source guards `isNaN`) and
never an exception (the function is total).  The safe-division primitive
`safeDivide` gives `null` when either operand is `null` or the denominator
is zero, and the quotient otherwise. -/
theorem parseNumeric_safeDivide_spec :
    (∀ q : ℚ, parseNumeric (.num q) = some q) ∧
    parseNumeric .jsNull = none ∧
    parseNumeric (.str "abc") = none ∧
    parseNumeric (.str "$1,234.56") = some (123456 / 100) ∧
    (∀ s : String, ¬ (s = "N/A" ∨ s = "") →
      parseNumeric (.str s) =
        parseFloatJS (String.mk (s.data.filter (fun c => c.isDigit ∨ c = '.' ∨ c = '-')))) ∧
    (∀ n : Option ℚ, safeDivide n none = none) ∧
    (∀ d : Option ℚ, safeDivide none d = none) ∧
    (∀ n : Option ℚ, safeDivide n (some 0) = none) ∧
    (∀ n d : ℚ, d ≠ 0 → safeDivide (some n) (some d) = some (n / d)) := by
  refine ⟨fun q => rfl, rfl, rfl, ?_, ?_, ?_, fun d => rfl, ?_, ?_⟩
  · simp [parseNumeric, parseFloatJS, digitsToNat, parseExpPart, isJsSpace]
    norm_num
  · intro s hs
    simp [parseNumeric, hs]
  · intro n
    cases n <;> rfl
  · intro n
    cases n <;> simp [safeDivide]
  · intro n d hd
    simp [safeDivide, hd]

/-- Witness for C7 at concrete inputs: the string branch at `"72.1"` and
safe division at `6 / 3`. -/
theorem parseNumeric_safeDivide_spec_witness :
    parseNumeric (.str "72.1") =
      parseFloatJS (String.mk ("72.1".data.filter (fun c => c.isDigit ∨ c = '.' ∨ c = '-'))) ∧
    safeDivide (some 6) (some 3) = some (6 / 3) := by
  have h := parseNumeric_safeDivide_spec
  exact ⟨h.2.2.2.2.1 "72.1" (by simp),
    h.2.2.2.2.2.2.2.2 6 3 (by norm_num)⟩

/-- C1 counterexample: a record whose only non-`null` inputs are
`rsi_value = 100` (momentum score `1`), `macd_value = 2` and
`macd_signal = 1` (trend score `1`) has volatility, strength and
support/resistance scores `null`, yet its overall score is
`0.55 = 0.25*1 + 0.30*1`, not the `0.60 = 0.25*1 + 0.35*1` the claimed
weight set requires: `calculateOverallScore` weights trend `0.30` and
strength `0.20`, not `0.35`/`0.15`. -/
theorem overallScore_claimed_weights_counterexample :
    (normalizeKpiData (fun f =>
      if f = "rsi_value" then .num 100
      else if f = "macd_value" then .num 2
      else if f = "macd_signal" then .num 1
      else .jsNull)).momentum_score = some 1 ∧
    (normalizeKpiData (fun f =>
      if f = "rsi_value" then .num 100
      else if f = "macd_value" then .num 2
      else if f = "macd_signal" then .num 1
      else .jsNull)).trend_score = some 1 ∧
    (normalizeKpiData (fun f =>
      if f = "rsi_value" then .num 100
      else if f = "macd_value" then .num 2
      else if f = "macd_signal" then .num 1
      else .jsNull)).volatility_score = none ∧
    (normalizeKpiData (fun f =>
      if f = "rsi_value" then .num 100
      else if f = "macd_value" then .num 2
      else if f = "macd_signal" then .num 1
      else .jsNull)).strength_score = none ∧
    (normalizeKpiData (fun f =>
      if f = "rsi_value" then .num 100
      else if f = "macd_value" then .num 2
      else if f = "macd_signal" then .num 1
      else .jsNull)).support_resistance_score = none ∧
    (normalizeKpiData (fun f =>
      if f = "rsi_value" then .num 100
      else if f = "macd_value" then .num 2
      else if f = "macd_signal" then .num 1
      else .jsNull)).overall_score ≠ some ((25 / 100) * 1 + (35 / 100) * 1) ∧
    (normalizeKpiData (fun f =>
      if f = "rsi_value" then .num 100
      else if f = "macd_value" then .num 2
      else if f = "macd_signal" then .num 1
      else .jsNull)).overall_score = some (11 / 20) := by
  refine ⟨?_, ?_, ?_, ?_, ?_, ?_, ?_⟩ <;>
    · simp [normalizeKpiData, estimateCurrentPrice, jsOr, truthy, calculateMomentumScore,
        calculateTrendScore, calculateVolatilityScore, calculateStrengthScore,
        calculateSupportResistanceScore, calculateOverallScore, calculateAverage,
        normalizeRSI, normalizeStochastic, normalizeStochRSI, normalizeWilliamsR,
        normalizeROC, normalizeUltimateOscillator, normalizeMacd,
        normalizeMovingAverageTrend, normalizeBullBearPower, normalizeATR,
        normalizeHighsLows, normalizeADX, normalizeCCI, normalizePivotClassic,
        normalizePivotFibonacci, normalizePivotCamarilla, normalizePivotWoodie,
        normalizePivotDeMark, normalizePivotGeneric, parseNumeric]
      all_goals norm_num

/-- C1 amended: the engine's overall score (`calculateOverallScore`) is
the weighted sum over only the non-`null` category scores with weights
momentum `0.25`, trend `0.30`, volatility `0.15`, strength `0.20`,
support/resistance `0.10`, with no renormalization — so with only
momentum and trend present it equals `0.25*momentum + 0.30*trend` — and
it is `null` exactly when all five category scores are `null`; the
claimed weight set `{0.25, 0.35, 0.15, 0.15, 0.10}` is the one of the
alternate composite path `computeCompositeComponents`. -/
theorem overallScore_weights_amended :
    (∀ m t : ℚ, calculateOverallScore (some m) (some t) none none none =
      some ((25 / 100) * m + (30 / 100) * t)) ∧
    (∀ m t v s sr : Option ℚ,
      calculateOverallScore m t v s sr = none ↔
        m = none ∧ t = none ∧ v = none ∧ s = none ∧ sr = none) ∧
    (∀ m t v s sr : ℚ,
      calculateOverallScore (some m) (some t) (some v) (some s) (some sr) =
        some ((25 / 100) * m + (30 / 100) * t + (15 / 100) * v +
          (20 / 100) * s + (10 / 100) * sr)) ∧
    (∀ m t : ℚ,
      (computeCompositeComponents (momentumTrendOnlyRecord m t)).compositeScore =
        some ((25 / 100) * m + (35 / 100) * t)) := by
  refine ⟨?_, ?_, ?_, ?_⟩
  · intro m t
    simp [calculateOverallScore]
    ring
  · intro m t v s sr
    rcases m with _ | m <;> rcases t with _ | t <;> rcases v with _ | v <;>
      rcases s with _ | s <;> rcases sr with _ | sr <;> simp [calculateOverallScore]
  · intro m t v s sr
    simp [calculateOverallScore]
    ring
  · intro m t
    simp [computeCompositeComponents, momentumTrendOnlyRecord, dbCalculateAverage]
    ring

/-- C2: when the mapped `macd_value` is a non-zero number and the mapped
`macd_signal` is `null` or zero, the mapper's signal estimate overwrites
`macd_signal` with `0.9 * macd_value`, so `normalizeMacd` on the resulting
record returns `(macd - 0.9*macd) / |0.9*macd|` — a non-`null` value,
exactly `1/9` for positive `macd` — instead of propagating `null`. -/
theorem macdSignalFallback_overwrites (q : ℚ) (hq : q ≠ 0) (r : KpiData)
    (hv : r "macd_value" = .num q)
    (hs : r "macd_signal" = .jsNull ∨ r "macd_signal" = .num 0) :
    (applyMacdSignalFallback r) "macd_signal" = .num (q * (9 / 10)) ∧
    (applyMacdSignalFallback r) "macd_value" = .num q ∧
    normalizeMacd ((applyMacdSignalFallback r) "macd_value")
      ((applyMacdSignalFallback r) "macd_signal") =
      some ((q - q * (9 / 10)) / |q * (9 / 10)|) ∧
    (0 < q → normalizeMacd ((applyMacdSignalFallback r) "macd_value")
      ((applyMacdSignalFallback r) "macd_signal") = some (1 / 9)) := by
  have hsig : ¬ truthy (r "macd_signal") := by
    rcases hs with h | h <;> simp [truthy, h]
  have hupd : applyMacdSignalFallback r =
      updateField r "macd_signal" (.num (q * (9 / 10))) := by
    unfold applyMacdSignalFallback
    rw [hv]
    simp [hq, hsig]
  have hsig' : (applyMacdSignalFallback r) "macd_signal" = .num (q * (9 / 10)) := by
    rw [hupd]; simp [updateField]
  have hval' : (applyMacdSignalFallback r) "macd_value" = .num q := by
    rw [hupd]; simp [updateField, hv]
  have hnine : q * (9 / 10) ≠ 0 := by
    intro h
    rcases mul_eq_zero.mp h with h | h
    · exact hq h
    · norm_num at h
  refine ⟨hsig', hval', ?_, ?_⟩
  · rw [hsig', hval']
    simp [normalizeMacd, parseNumeric_num, abs_eq_zero, hnine]
  · intro hpos
    rw [hsig', hval']
    have habs : |q * (9 / 10)| = q * (9 / 10) := abs_of_pos (by positivity)
    simp [normalizeMacd, parseNumeric_num, abs_eq_zero, hnine, habs]
    rw [div_eq_iff hnine]
    ring

/-- Witness for C2 at `macd_value = 10` on a record with a `null`
signal: the signal becomes `9` and the normalized MACD is `1/9`. -/
theorem macdSignalFallback_overwrites_witness :
    (applyMacdSignalFallback (fun f => if f = "macd_value" then .num 10 else .jsNull))
      "macd_signal" = .num (10 * (9 / 10)) ∧
    normalizeMacd
      ((applyMacdSignalFallback (fun f => if f = "macd_value" then .num 10 else .jsNull))
        "macd_value")
      ((applyMacdSignalFallback (fun f => if f = "macd_value" then .num 10 else .jsNull))
        "macd_signal") = some (1 / 9) := by
  have h := macdSignalFallback_overwrites 10 (by norm_num)
    (fun f => if f = "macd_value" then .num 10 else .jsNull)
    (by simp) (Or.inl (by simp))
  exact ⟨h.1, h.2.2.2 (by norm_num)⟩

/-- C3 counterexample: a record with `current_price`, `ma20_simple_value`
and `ma50_simple_value` all `null` and `ma200_simple_value = 100` — the
engine's own current-price estimate is `null`, not `100`, because the
fallback chain inside `normalizeKpiData` stops at MA50; consequently
`atr_normalized` is `null` even with `atr_value = 5` present. -/
theorem enginePrice_ignores_ma200_counterexample :
    estimateCurrentPrice (fun f => if f = "ma200_simple_value" then .num 100 else .jsNull) =
      .jsNull ∧
    estimateCurrentPrice (fun f => if f = "ma200_simple_value" then .num 100 else .jsNull) ≠
      .num 100 ∧
    (normalizeKpiData (fun f =>
      if f = "ma200_simple_value" then .num 100
      else if f = "atr_value" then .num 5
      else .jsNull)).atr_normalized = none := by
  refine ⟨?_, ?_, ?_⟩
  · simp [estimateCurrentPrice, jsOr, truthy]
  · simp [estimateCurrentPrice, jsOr, truthy]
  · simp [normalizeKpiData, normalizeATR, estimateCurrentPrice, jsOr, truthy, parseNumeric]

/-- C3 amended: the first-non-null-of-MA20/MA50/MA200 estimate is the
mapper's (`rowToKpiData` writes it into `current_price` before the record
reaches the engine); the engine's internal estimate consults only
`current_price`, `ma20_simple_value` and `ma50_simple_value`.  For a
record with `current_price`, MA20 and MA50 `null` and MA200 a non-zero
number, the mapper's fallback stores MA200 and the engine then uses it,
but the engine applied directly to such a record estimates `null`, not
MA200. -/
theorem currentPrice_fallback_amended (q : ℚ) (hq : q ≠ 0) (r : KpiData)
    (hcp : r "current_price" = .jsNull)
    (h20 : r "ma20_simple_value" = .jsNull)
    (h50 : r "ma50_simple_value" = .jsNull)
    (h200 : r "ma200_simple_value" = .num q) :
    (applyPriceFallback r) "current_price" = .num q ∧
    estimateCurrentPrice (applyPriceFallback r) = .num q ∧
    estimateCurrentPrice r = .jsNull := by
  have hfall : applyPriceFallback r =
      updateField r "current_price" (.num q) := by
    unfold applyPriceFallback
    simp [hcp, h20, h50, h200, truthy, jsOr]
  refine ⟨?_, ?_, ?_⟩
  · rw [hfall]; simp [updateField]
  · rw [hfall]
    simp [estimateCurrentPrice, updateField, jsOr, truthy, h20, h50, hq]
  · simp [estimateCurrentPrice, jsOr, truthy, hcp, h20, h50]

/-- Witness for C3's amended statement at `ma200_simple_value = 100`. -/
theorem currentPrice_fallback_amended_witness :
    (applyPriceFallback (fun f => if f = "ma200_simple_value" then .num 100 else .jsNull))
      "current_price" = .num 100 ∧
    estimateCurrentPrice
      (applyPriceFallback (fun f => if f = "ma200_simple_value" then .num 100 else .jsNull)) =
      .num 100 ∧
    estimateCurrentPrice (fun f => if f = "ma200_simple_value" then .num 100 else .jsNull) =
      .jsNull :=
  currentPrice_fallback_amended 100 (by norm_num)
    (fun f => if f = "ma200_simple_value" then .num 100 else .jsNull)
    (by simp) (by simp) (by simp) (by simp)

/-- C10: the engine is deterministic and stateless.  Threading the
calculator's only instance state (`defaults`) through `normalizeKpiData`
leaves it unchanged, the output does not depend on it, and a second run on
the same record — from whatever state the first run left — produces an
identical normalized record. -/
theorem engine_stateless_idempotent :
    ∀ (st : CalculatorState) (r : KpiData),
      (normalizeKpiDataSt st r).1 = normalizeKpiData r ∧
      (normalizeKpiDataSt st r).2 = st ∧
      (normalizeKpiDataSt (normalizeKpiDataSt st r).2 r).1 = (normalizeKpiDataSt st r).1 :=
  fun _ _ => ⟨rfl, rfl, rfl⟩

theorem find?_append_first {pre : List MdToken} {t : MdToken} {post : List MdToken}
    (hpre : ∀ x ∈ pre, isTableWithHeader x = false) (ht : isTableWithHeader t = true) :
    (pre ++ t :: post).find? isTableWithHeader = some t := by
  induction pre with
  | nil => simp [List.find?_cons_of_pos, ht]
  | cons a as ih =>
    have ha : isTableWithHeader a = false := hpre a (by simp)
    rw [List.cons_append, List.find?_cons_of_neg _ (by simp [ha])]
    exact ih (fun x hx => hpre x (by simp [hx]))

/-- C9: `parseMarkdownTable` returns `{ headers: [], rows: [] }` when the
input is absent or empty, and when the lexed document contains no table
token with at least one header cell; when several tables exist it
extracts the first one with at least one header cell.  The function is
total over every lexer output, so it never throws. -/
theorem parseMarkdownTable_spec :
    ∀ lexer : String → List MdToken,
      parseMarkdownTable lexer none = ⟨[], []⟩ ∧
      parseMarkdownTable lexer (some "") = ⟨[], []⟩ ∧
      (∀ md : String, (∀ t ∈ lexer md, isTableWithHeader t = false) →
        parseMarkdownTable lexer (some md) = ⟨[], []⟩) ∧
      (∀ md : String, md ≠ "" →
        ∀ pre header rows post,
          lexer md = pre ++ .table header rows :: post →
          (∀ t ∈ pre, isTableWithHeader t = false) →
          header ≠ [] →
          parseMarkdownTable lexer (some md) =
            ⟨header.map extractPlainText,
             rows.map (fun row => row.map extractPlainText)⟩) := by
  intro lexer
  refine ⟨rfl, rfl, ?_, ?_⟩
  · intro md hnone
    by_cases hmd : md = ""
    · simp [parseMarkdownTable, hmd]
    · have hfind : (lexer md).find? isTableWithHeader = none :=
        List.find?_eq_none.mpr (by intro x hx; simp [hnone x hx])
      simp [parseMarkdownTable, hmd, hfind]
  · intro md hmd pre header rows post hlex hpre hheader
    have ht : isTableWithHeader (.table header rows) = true := by
      simp [isTableWithHeader, hheader]
    have hfind := @find?_append_first pre (.table header rows) post hpre ht
    simp [parseMarkdownTable, hmd, hlex, hfind]

/-- Witness for C9: a lexer producing a non-table token, a headerless
table and then a proper table — the proper table is selected; a lexer
producing only a non-table token gives the empty result. -/
theorem parseMarkdownTable_spec_witness :
    parseMarkdownTable
      (fun _ => [MdToken.nonTable, MdToken.table [] [], MdToken.table ["H"] [["x"]]])
      (some "doc") =
      ⟨["H"].map extractPlainText, [["x"]].map (fun row => row.map extractPlainText)⟩ ∧
    parseMarkdownTable (fun _ => [MdToken.nonTable]) (some "doc") = ⟨[], []⟩ := by
  refine ⟨?_, ?_⟩
  · exact (parseMarkdownTable_spec _).2.2.2 "doc" (by decide)
      [MdToken.nonTable, MdToken.table [] []] ["H"] [["x"]] [] rfl (by decide) (by decide)
  · exact (parseMarkdownTable_spec _).2.2.1 "doc" (by decide)

/-- C8: the row-to-record mapper initializes every field other than the
fetch stamps to `null`; a cell that is exactly `"N/A"`, `""` or `"-"`
leaves the field `null`; otherwise a field whose name matches the
numeric naming patterns is parsed as a float, an unparseable cell
becoming `null`; every other mapped cell is kept as the (already
trimmed) cell string.  Over the actual dictionary, the source's
substring test for the numeric patterns coincides with the suffix test
the spec describes. -/
theorem rowToKpiData_cell_mapping_spec :
    (∀ fd ft f, f ≠ "fetch_date" → f ≠ "fetch_time" → initKpiData fd ft f = .jsNull) ∧
    (∀ fieldName cell, cell = "N/A" ∨ cell = "" ∨ cell = "-" →
      cellValue fieldName cell = .jsNull) ∧
    (∀ fieldName cell, ¬ (cell = "N/A" ∨ cell = "" ∨ cell = "-") →
      isNumericField fieldName = true →
      cellValue fieldName cell = (parseFloatJS cell).elim JSVal.jsNull JSVal.num) ∧
    (∀ fieldName cell, ¬ (cell = "N/A" ∨ cell = "" ∨ cell = "-") →
      isNumericField fieldName = false →
      cellValue fieldName cell = .str cell) ∧
    (∀ p ∈ columnMapping, isNumericField p.2 =
      numericFieldPats.any (fun pat => pat.data.isSuffixOf p.2.data)) := by
  refine ⟨?_, ?_, ?_, ?_, ?_⟩
  · intro fd ft f h1 h2
    simp [initKpiData, h1, h2]
  · intro fieldName cell h
    simp [cellValue, h]
  · intro fieldName cell h hnum
    cases hc : parseFloatJS cell <;> simp [cellValue, h, hnum, hc]
  · intro fieldName cell h hnum
    simp [cellValue, h, hnum]
  · decide

/-- Witness for C8 on concrete cells: `"N/A"` stays `null`, a numeric
field parses its cell, an action field keeps the string. -/
theorem rowToKpiData_cell_mapping_spec_witness :
    initKpiData "d" "t" "rsi_value" = .jsNull ∧
    cellValue "rsi_value" "N/A" = .jsNull ∧
    cellValue "rsi_value" "72.105" = (parseFloatJS "72.105").elim JSVal.jsNull JSVal.num ∧
    cellValue "rsi_action" "Buy" = .str "Buy" := by
  have h := rowToKpiData_cell_mapping_spec
  exact ⟨h.1 "d" "t" "rsi_value" (by decide) (by decide),
    h.2.1 "rsi_value" "N/A" (Or.inl rfl),
    h.2.2.1 "rsi_value" "72.105" (by decide) (by decide),
    h.2.2.2.1 "rsi_action" "Buy" (by decide) (by decide)⟩

/-- C4: under the raw-record invariant (every numeric field a finite
number or `null`), each per-indicator normalized field of
`normalizeKpiData` is `null` exactly when a required raw input is `null`
or a required denominator is zero (zero MACD signal, zero long MA, zero
ATR, zero estimated price, `high_14 = low_14`, `R1 = S1`).  The codomain
`Option ℚ` contains no `NaN` or `Infinity`, so no normalized field can be
either. -/
theorem normalized_null_iff_inputs_null (r : KpiData)
    (h : ∀ f ∈ engineNumericFields, NumOrNull (r f)) :
    ((normalizeKpiData r).rsi_normalized = none ↔ r "rsi_value" = .jsNull) ∧
    ((normalizeKpiData r).stochastic_normalized = none ↔ r "stochastic_value" = .jsNull) ∧
    ((normalizeKpiData r).stochrsi_normalized = none ↔ r "stochrsi_value" = .jsNull) ∧
    ((normalizeKpiData r).williams_r_normalized = none ↔ r "williams_r_value" = .jsNull) ∧
    ((normalizeKpiData r).roc_normalized = none ↔ r "roc_value" = .jsNull) ∧
    ((normalizeKpiData r).ultimate_oscillator_normalized = none ↔
      r "ultimate_oscillator_value" = .jsNull) ∧
    ((normalizeKpiData r).macd_normalized = none ↔
      r "macd_value" = .jsNull ∨ r "macd_signal" = .jsNull ∨ r "macd_signal" = .num 0) ∧
    ((normalizeKpiData r).ma_trend_5_10_normalized = none ↔
      r "ma5_simple_value" = .jsNull ∨ r "ma10_simple_value" = .jsNull ∨
        r "ma10_simple_value" = .num 0) ∧
    ((normalizeKpiData r).ma_trend_10_20_normalized = none ↔
      r "ma10_simple_value" = .jsNull ∨ r "ma20_simple_value" = .jsNull ∨
        r "ma20_simple_value" = .num 0) ∧
    ((normalizeKpiData r).ma_trend_20_50_normalized = none ↔
      r "ma20_simple_value" = .jsNull ∨ r "ma50_simple_value" = .jsNull ∨
        r "ma50_simple_value" = .num 0) ∧
    ((normalizeKpiData r).ma_trend_50_100_normalized = none ↔
      r "ma50_simple_value" = .jsNull ∨ r "ma100_simple_value" = .jsNull ∨
        r "ma100_simple_value" = .num 0) ∧
    ((normalizeKpiData r).ma_trend_100_200_normalized = none ↔
      r "ma100_simple_value" = .jsNull ∨ r "ma200_simple_value" = .jsNull ∨
        r "ma200_simple_value" = .num 0) ∧
    ((normalizeKpiData r).ma_trend_20_200_normalized = none ↔
      r "ma20_simple_value" = .jsNull ∨ r "ma200_simple_value" = .jsNull ∨
        r "ma200_simple_value" = .num 0) ∧
    ((normalizeKpiData r).ma_trend_50_200_normalized = none ↔
      r "ma50_simple_value" = .jsNull ∨ r "ma200_simple_value" = .jsNull ∨
        r "ma200_simple_value" = .num 0) ∧
    ((normalizeKpiData r).bull_bear_power_normalized = none ↔
      r "bull_bear_power_value" = .jsNull ∨ r "atr_value" = .jsNull ∨
        r "atr_value" = .num 0) ∧
    ((normalizeKpiData r).atr_normalized = none ↔
      r "atr_value" = .jsNull ∨ estimateCurrentPrice r = .jsNull ∨
        estimateCurrentPrice r = .num 0) ∧
    ((normalizeKpiData r).highs_lows_normalized = none ↔
      estimateCurrentPrice r = .jsNull ∨ r "high_14" = .jsNull ∨ r "low_14" = .jsNull ∨
        r "high_14" = r "low_14") ∧
    ((normalizeKpiData r).adx_normalized = none ↔ r "adx_value" = .jsNull) ∧
    ((normalizeKpiData r).cci_normalized = none ↔ r "cci_value" = .jsNull) ∧
    ((normalizeKpiData r).pivot_classic_normalized = none ↔
      estimateCurrentPrice r = .jsNull ∨ r "classic_pivot" = .jsNull ∨
        r "classic_r1" = .jsNull ∨ r "classic_s1" = .jsNull ∨
        r "classic_r1" = r "classic_s1") ∧
    ((normalizeKpiData r).pivot_fibonacci_normalized = none ↔
      estimateCurrentPrice r = .jsNull ∨ r "fibonacci_pivot" = .jsNull ∨
        r "fibonacci_r1" = .jsNull ∨ r "fibonacci_s1" = .jsNull ∨
        r "fibonacci_r1" = r "fibonacci_s1") ∧
    ((normalizeKpiData r).pivot_camarilla_normalized = none ↔
      estimateCurrentPrice r = .jsNull ∨ r "camarilla_pivot" = .jsNull ∨
        r "camarilla_r1" = .jsNull ∨ r "camarilla_s1" = .jsNull ∨
        r "camarilla_r1" = r "camarilla_s1") ∧
    ((normalizeKpiData r).pivot_woodie_normalized = none ↔
      estimateCurrentPrice r = .jsNull ∨ r "woodie_pivot" = .jsNull ∨
        r "woodie_r1" = .jsNull ∨ r "woodie_s1" = .jsNull ∨
        r "woodie_r1" = r "woodie_s1") ∧
    ((normalizeKpiData r).pivot_demark_normalized = none ↔
      estimateCurrentPrice r = .jsNull ∨ r "demark_pivot" = .jsNull ∨
        r "demark_r1" = .jsNull ∨ r "demark_s1" = .jsNull ∨
        r "demark_r1" = r "demark_s1") := by
  have hcp := h "current_price" (by decide)
  have h20 := h "ma20_simple_value" (by decide)
  have h50 := h "ma50_simple_value" (by decide)
  have hest : NumOrNull (estimateCurrentPrice r) :=
    numOrNull_jsOr (numOrNull_jsOr hcp h20) h50
  refine ⟨?_, ?_, ?_, ?_, ?_, ?_, ?_, ?_, ?_, ?_, ?_, ?_, ?_, ?_, ?_, ?_, ?_, ?_, ?_,
    ?_, ?_, ?_, ?_, ?_⟩
  · exact parseNumeric_map_eq_none_iff (h "rsi_value" (by decide)) _
  · exact parseNumeric_map_eq_none_iff (h "stochastic_value" (by decide)) _
  · exact parseNumeric_map_eq_none_iff (h "stochrsi_value" (by decide)) _
  · exact parseNumeric_map_eq_none_iff (h "williams_r_value" (by decide)) _
  · exact parseNumeric_map_eq_none_iff (h "roc_value" (by decide)) _
  · exact parseNumeric_map_eq_none_iff (h "ultimate_oscillator_value" (by decide)) _
  · exact normalizeMacd_eq_none_iff (h "macd_value" (by decide)) (h "macd_signal" (by decide))
  · exact normalizeMovingAverageTrend_eq_none_iff
      (h "ma5_simple_value" (by decide)) (h "ma10_simple_value" (by decide))
  · exact normalizeMovingAverageTrend_eq_none_iff
      (h "ma10_simple_value" (by decide)) h20
  · exact normalizeMovingAverageTrend_eq_none_iff h20 h50
  · exact normalizeMovingAverageTrend_eq_none_iff h50 (h "ma100_simple_value" (by decide))
  · exact normalizeMovingAverageTrend_eq_none_iff
      (h "ma100_simple_value" (by decide)) (h "ma200_simple_value" (by decide))
  · exact normalizeMovingAverageTrend_eq_none_iff h20 (h "ma200_simple_value" (by decide))
  · exact normalizeMovingAverageTrend_eq_none_iff h50 (h "ma200_simple_value" (by decide))
  · exact normalizeBullBearPower_eq_none_iff
      (h "bull_bear_power_value" (by decide)) (h "atr_value" (by decide))
  · exact normalizeATR_eq_none_iff (h "atr_value" (by decide)) hest
  · exact normalizeHighsLows_eq_none_iff hest
      (h "high_14" (by decide)) (h "low_14" (by decide))
  · exact parseNumeric_map_eq_none_iff (h "adx_value" (by decide)) _
  · exact parseNumeric_map_eq_none_iff (h "cci_value" (by decide)) _
  · exact normalizePivotGeneric_eq_none_iff hest (h "classic_pivot" (by decide))
      (h "classic_r1" (by decide)) (h "classic_s1" (by decide))
  · exact normalizePivotGeneric_eq_none_iff hest (h "fibonacci_pivot" (by decide))
      (h "fibonacci_r1" (by decide)) (h "fibonacci_s1" (by decide))
  · exact normalizePivotGeneric_eq_none_iff hest (h "camarilla_pivot" (by decide))
      (h "camarilla_r1" (by decide)) (h "camarilla_s1" (by decide))
  · exact normalizePivotGeneric_eq_none_iff hest (h "woodie_pivot" (by decide))
      (h "woodie_r1" (by decide)) (h "woodie_s1" (by decide))
  · exact normalizePivotGeneric_eq_none_iff hest (h "demark_pivot" (by decide))
      (h "demark_r1" (by decide)) (h "demark_s1" (by decide))

/-- Witness for C4 at the all-`null` record: the invariant hypothesis is
discharged by the left disjunct everywhere, and the MACD conjunct gives a
`null` normalized MACD. -/
theorem normalized_null_iff_inputs_null_witness :
    (normalizeKpiData (fun _ => .jsNull)).macd_normalized = none ∧
    (normalizeKpiData (fun _ => .jsNull)).rsi_normalized = none := by
  have h := normalized_null_iff_inputs_null (fun _ => .jsNull) (fun f _ => Or.inl rfl)
  exact ⟨h.2.2.2.2.2.2.1.mpr (Or.inl rfl), h.1.mpr rfl⟩

end Btock
